import Mathlib

/-!
Verification of the home-ifttt scheduling core (`src/application.py`).

The Python program is shallowly embedded: `datetime` values become integer
microsecond counts (Python `datetime` subtraction is exact, and
`timedelta` normalisation keeps `seconds` in `[0, 86400)`), the `Lights`
actuator becomes a state record with an explicit trace of emitted webhook
events, and the scheduler tick becomes a pure function of the slot list,
the greet deadline, the sun oracle's answer and the current time.
-/

namespace HomeIfttt

/-- Microseconds per day, the modulus used by Python `timedelta`
normalisation (`timedelta.seconds` is the seconds part of the
remainder modulo one day). -/
def usPerDay : Int := 86400000000

/-- Days from 1970-01-01 in the proleptic Gregorian calendar
(civil-from-days inverse), mirroring Python `datetime.toordinal`
up to the 1970 offset.  All uses in this file have positive years. -/
def daysFromCivil (y m d : Int) : Int :=
  let y2 := if m ≤ 2 then y - 1 else y
  let era := (if 0 ≤ y2 then y2 else y2 - 399) / 400
  let yoe := y2 - era * 400
  let mp := (m + 9) % 12
  let doy := (153 * mp + 2) / 5 + d - 1
  let doe := yoe * 365 + yoe / 4 - yoe / 100 + doy
  era * 146097 + doe - 719468

/-- A Python `datetime`, represented by the exact count of microseconds
since 1970-01-01 00:00:00 (negative before that epoch). -/
structure PyDateTime where
  micros : Int
deriving DecidableEq, Repr

/-- Build a `PyDateTime` from calendar components, like
`datetime(y, m, d, hh, mi, ss, us)`. -/
def mkDateTime (y m d hh mi ss us : Int) : PyDateTime :=
  ⟨daysFromCivil y m d * usPerDay + ((hh * 3600 + mi * 60 + ss) * 1000000 + us)⟩

/-- Python `datetime.weekday()`: Monday = 0 … Sunday = 6.
1970-01-01 was a Thursday (= 3). -/
def pyWeekday (t : PyDateTime) : Int :=
  (t.micros / usPerDay + 3) % 7

/-- Python `timedelta(microseconds = t).seconds`: the timedelta is
normalised so that the sub-day remainder is in `[0, one day)`, and
`seconds` is that remainder in whole seconds. -/
def tdSeconds (t : Int) : Int :=
  (t % usPerDay) / 1000000

/-- `datetime.strptime(t, "%H:%M")`: a datetime on 1900-01-01 carrying
the parsed hour and minute. -/
def strptimeHM (hh mi : Int) : PyDateTime :=
  mkDateTime 1900 1 1 hh mi 0 0

/-- `TimeSlot.__init__`: `_range` holds the two `strptime`d bounds and
`_weekdays` the optional weekday filter. -/
structure TimeSlot where
  rangeStart : PyDateTime
  rangeStop : PyDateTime
  weekdays : Option (List Int)
deriving DecidableEq, Repr

/-- `TimeSlot('HH:MM', 'HH:MM', weekdays)`. -/
def mkTimeSlot (startH startM stopH stopM : Int) (wd : Option (List Int)) : TimeSlot :=
  ⟨strptimeHM startH startM, strptimeHM stopH stopM, wd⟩

/-- The comparison at the heart of `TimeSlot.within`:
`until_next = self._range - x - timedelta(microseconds=1)` followed by
`until_next[0].seconds > until_next[1].seconds`. -/
def withinCore (s : TimeSlot) (x : PyDateTime) : Bool :=
  decide (tdSeconds (s.rangeStart.micros - x.micros - 1) >
          tdSeconds (s.rangeStop.micros - x.micros - 1))

/-- `TimeSlot.within(x)`: returns `False` when a weekday filter is
present and `x.weekday()` is not a member, otherwise the
`until_next` seconds comparison. -/
def TimeSlot.within (s : TimeSlot) (x : PyDateTime) : Bool :=
  match s.weekdays with
  | some wd => if wd.contains (pyWeekday x) then withinCore s x else false
  | none => withinCore s x

/-- The `Lights` actuator: the believed commanded state `_on`, plus the
trace of webhook events emitted so far (each `webhooks_trigger` call
appends its event name). -/
structure LightsState where
  _on : Bool
  effects : List String
deriving DecidableEq, Repr

/-- The `Lights.on` setter: under the lock, flip `_on` and emit exactly
one webhook event when the desired value differs from `_on`; do nothing
otherwise. -/
def setOn (s : LightsState) (v : Bool) : LightsState :=
  if v && !s._on then ⟨true, s.effects ++ ["outdoor_lights_on"]⟩
  else if !v && s._on then ⟨false, s.effects ++ ["outdoor_lights_off"]⟩
  else s

/-- `Lights.__init__`: `_on = True  # Assume on` followed by
`self.on = False`, which goes through the debounced setter. -/
def lightsNew : LightsState :=
  setOn ⟨true, []⟩ false

/-- A sequence of assignments to the `Lights.on` setter. -/
def runSets (s : LightsState) (ds : List Bool) : LightsState :=
  ds.foldl setOn s

/-- Number of strict value changes in the commanded-value trace produced
by a sequence of desired values, starting from baseline `b`. -/
def countChanges (b : Bool) : List Bool → Nat
  | [] => 0
  | d :: ds => (if d = b then 0 else 1) + countChanges d ds

/-- The `Lights.on` setter in the presence of delivery failure:
`webhooks_trigger` performs the HTTP request and then
`r.raise_for_status()`, so when the transition fires and delivery fails
the exception propagates after `_on` has already been mutated.  The
second component records whether an exception propagates out of the
setter. -/
def setOnF (s : LightsState) (v : Bool) (deliveryOk : Bool) : LightsState × Bool :=
  if v && !s._on then (⟨true, s.effects ++ ["outdoor_lights_on"]⟩, !deliveryOk)
  else if !v && s._on then (⟨false, s.effects ++ ["outdoor_lights_off"]⟩, !deliveryOk)
  else (s, false)

/-- `webhooks_trigger`'s payload construction: collect the non-`None`
values into `data`, then `if len(data): data = None`, and the request is
sent with `json=data` (so a JSON body exists only when `data` is a
dict). -/
def webhooksPayload (value1 value2 value3 : Option String) : Option (List (String × String)) :=
  let d0 : List (String × String) := []
  let d1 := match value1 with
    | some v => d0 ++ [("value1", v)]
    | none => d0
  let d2 := match value2 with
    | some v => d1 ++ [("value2", v)]
    | none => d1
  let d3 := match value3 with
    | some v => d2 ++ [("value3", v)]
    | none => d2
  if d3.length ≠ 0 then none else some d3

/-- The mutable scheduler fields relevant to the claims: the owned
`Lights`, the `_greet_until` deadline and the `_dirty` event flag. -/
structure SchedulerState where
  lights : LightsState
  greetUntil : Option PyDateTime
  dirty : Bool
deriving DecidableEq, Repr

/-- The loop's greet test:
`self._greet_until is not None and datetime.utcnow() < self._greet_until`. -/
def greetActive (gu : Option PyDateTime) (now : PyDateTime) : Bool :=
  match gu with
  | none => false
  | some d => decide (now.micros < d.micros)

/-- `Scheduler.greet(duration)`: overwrite `_greet_until` with
`utcnow() + duration` and set the `_dirty` event. -/
def Scheduler.greet (s : SchedulerState) (now : PyDateTime) (duration : Int) : SchedulerState :=
  ⟨s.lights, some ⟨now.micros + duration⟩, true⟩

/-- The decision computed by `Scheduler._loop`: start with `on = False`,
set it on any active slot, set it when the greet deadline is pending,
and finally force it off when the sun is up. -/
def loopDecision (slots : List TimeSlot) (gu : Option PyDateTime) (sunUp : Bool)
    (now : PyDateTime) : Bool :=
  let onv := slots.foldl (fun acc slot => if slot.within now then true else acc) false
  let onv2 := if greetActive gu now then true else onv
  if sunUp then false else onv2

/-- `Scheduler._loop`: compute the decision and feed it to the actuator
through the debounced setter. -/
def schedulerTick (slots : List TimeSlot) (sunUp : Bool) (now : PyDateTime)
    (s : SchedulerState) : SchedulerState :=
  ⟨setOn s.lights (loopDecision slots s.greetUntil sunUp now), s.greetUntil, s.dirty⟩

/-- One iteration of `Scheduler.run`'s `try`/`except BaseException`
body: a tick outcome that raised is caught, logged
(`application.logger.error(f"Scheduler: ...")`) and swallowed; a
successful tick installs the new state. -/
def runCatch (s : SchedulerState) (logs : List String)
    (tick : Except String SchedulerState) : SchedulerState × List String :=
  match tick with
  | Except.ok s2 => (s2, logs)
  | Except.error e => (s, logs ++ ["Scheduler: " ++ e])

/-- `Scheduler.run`'s `while True` loop over a finite prefix of tick
outcomes: every outcome is processed in order, errors notwithstanding. -/
def runIterations (s : SchedulerState) (logs : List String) :
    List (Except String SchedulerState) → SchedulerState × List String
  | [] => (s, logs)
  | t :: ts =>
      let r := runCatch s logs t
      runIterations r.fst r.snd ts

/-- Number of tick outcomes in a list that raised. -/
def countErrors : List (Except String SchedulerState) → Nat
  | [] => 0
  | Except.ok _ :: ts => countErrors ts
  | Except.error _ :: ts => 1 + countErrors ts

end HomeIfttt

namespace HomeIfttt

/-! ### Helper lemmas -/

lemma setOn_on (s : LightsState) (d : Bool) : (setOn s d)._on = d := by
  cases s with
  | mk o e => cases o <;> cases d <;> simp [setOn]

lemma setOn_effects_length (s : LightsState) (d : Bool) :
    (setOn s d).effects.length = s.effects.length + (if d = s._on then 0 else 1) := by
  cases s with
  | mk o e => cases o <;> cases d <;> simp [setOn]

lemma runSets_effects_length (ds : List Bool) (s : LightsState) :
    (runSets s ds).effects.length = s.effects.length + countChanges s._on ds := by
  induction ds generalizing s with
  | nil => simp [runSets, countChanges]
  | cons d ds ih =>
      have h1 : runSets s (d :: ds) = runSets (setOn s d) ds := rfl
      rw [h1, ih, setOn_effects_length, setOn_on, countChanges]
      omega

lemma foldl_slot_any (l : List TimeSlot) (b : Bool) (now : PyDateTime) :
    l.foldl (fun acc slot => if slot.within now then true else acc) b =
      (b || l.any (fun slot => slot.within now)) := by
  induction l generalizing b with
  | nil => simp
  | cons hd tl ih =>
      rw [List.foldl_cons, ih, List.any_cons]
      cases hd.within now <;> simp

end HomeIfttt

namespace HomeIfttt

/-! ### Claim theorems -/

/-- C1: across any sequence of assignments to the `Lights.on` setter the
number of emitted webhook effects equals the number of strict value
changes in the commanded-value trace starting from the baseline `true`;
from the freshly constructed actuator, two consecutive `set(true)` calls
add exactly one effect; and a `set` whose desired value equals the
current commanded value is a no-op. -/
theorem lights_debounce_invariant :
    (∀ ds : List Bool, (runSets ⟨true, []⟩ ds).effects.length = countChanges true ds) ∧
    (runSets lightsNew [true, true]).effects.length = lightsNew.effects.length + 1 ∧
    (∀ s : LightsState, setOn s s._on = s) := by
  refine ⟨fun ds => ?_, by decide, fun s => ?_⟩
  · rw [runSets_effects_length]
    simp
  · cases s with
    | mk o e => cases o <;> simp [setOn]

/-- C10: constructing `Lights` itself emits exactly one
`outdoor_lights_off` effect and leaves the commanded state `false`: the
constructor sets `_on = True` then assigns `self.on = False` through the
debounced setter. -/
theorem lights_construction_effect :
    lightsNew.effects = ["outdoor_lights_off"] ∧ lightsNew._on = false :=
  ⟨rfl, rfl⟩

/-- C4 counterexample: constructing the actuator and immediately calling
`set(true)` does not emit zero effects — the constructor itself already
emitted one `outdoor_lights_off`, and `set(true)` then emits an
`outdoor_lights_on`, so two effects have been emitted. -/
theorem lights_startup_set_true_counterexample :
    ¬ ((setOn lightsNew true).effects.length = 0) := by decide

/-- C4 amended: constructing the actuator emits one `outdoor_lights_off`
effect (the constructor drives the `true` baseline to `false`); an
immediately following `set(false)` adds nothing, so the total is exactly
one "turn off" effect, while an immediately following `set(true)` adds
one `outdoor_lights_on`, for two effects in total. -/
theorem lights_startup_transition_amended :
    (setOn lightsNew false).effects = ["outdoor_lights_off"] ∧
    (setOn lightsNew true).effects = ["outdoor_lights_off", "outdoor_lights_on"] :=
  ⟨rfl, rfl⟩

/-- C5: `greet` always overwrites the deadline with `now + duration`
(last-caller-wins), the override is active exactly when `now` precedes
the last deadline written, and concretely `greet(10 min)` at 19:00
followed by `greet(2 min)` at 19:01 leaves the override inactive at
19:05 even though the first call's deadline (19:10) has not passed. -/
theorem greet_last_write_wins :
    (∀ (s : SchedulerState) (t1 : PyDateTime) (d1 : Int) (t2 : PyDateTime) (d2 : Int)
        (now : PyDateTime),
      (Scheduler.greet (Scheduler.greet s t1 d1) t2 d2).greetUntil = some ⟨t2.micros + d2⟩ ∧
      greetActive (Scheduler.greet (Scheduler.greet s t1 d1) t2 d2).greetUntil now =
        decide (now.micros < t2.micros + d2)) ∧
    greetActive (Scheduler.greet (Scheduler.greet ⟨lightsNew, none, false⟩
        (mkDateTime 2019 7 8 19 0 0 0) 600000000)
        (mkDateTime 2019 7 8 19 1 0 0) 120000000).greetUntil
      (mkDateTime 2019 7 8 19 5 0 0) = false ∧
    (mkDateTime 2019 7 8 19 5 0 0).micros < (mkDateTime 2019 7 8 19 0 0 0).micros + 600000000 := by
  refine ⟨fun s t1 d1 t2 d2 now => ⟨rfl, rfl⟩, by decide, by decide⟩

/-- C2: the decision `Scheduler._loop` feeds to the actuator equals
"some slot active or greet override active", forced to `false` whenever
the sun oracle reports the sun up; concretely, with the 06:00–23:00 slot
active at 10:00 and the sun up the decision is off, and at 23:30 with no
slot active, the greet deadline pending and the sun down the decision is
on. -/
theorem loop_decision_formula :
    (∀ (slots : List TimeSlot) (gu : Option PyDateTime) (sunUp : Bool) (now : PyDateTime),
      loopDecision slots gu sunUp now =
        (!sunUp && (slots.any (fun slot => slot.within now) || greetActive gu now))) ∧
    loopDecision [mkTimeSlot 6 0 23 0 none] none true (mkDateTime 2019 7 8 10 0 0 0) = false ∧
    loopDecision [mkTimeSlot 6 0 23 0 none] (some (mkDateTime 2019 7 8 23 31 0 0)) false
      (mkDateTime 2019 7 8 23 30 0 0) = true := by
  refine ⟨fun slots gu sunUp now => ?_, by decide, by decide⟩
  rw [loopDecision, foldl_slot_any]
  cases sunUp <;> cases greetActive gu now <;>
    cases slots.any (fun slot => slot.within now) <;> simp

/-- C7: `Scheduler.run` catches every exception at the tick boundary:
a raising tick outcome is logged and swallowed and the loop proceeds to
the remaining iterations unchanged, and over any finite run every
raising tick contributes exactly one log entry (none terminates the
loop). -/
theorem scheduler_run_catches_all :
    (∀ (s : SchedulerState) (logs : List String) (e : String)
        (ts : List (Except String SchedulerState)),
      runIterations s logs (Except.error e :: ts) =
        runIterations s (logs ++ ["Scheduler: " ++ e]) ts) ∧
    (∀ (s : SchedulerState) (logs : List String)
        (ticks : List (Except String SchedulerState)),
      (runIterations s logs ticks).snd.length = logs.length + countErrors ticks) := by
  constructor
  · intro s logs e ts
    rfl
  · intro s logs ticks
    induction ticks generalizing s logs with
    | nil => simp [runIterations, countErrors]
    | cons t ts ih =>
        cases t with
        | ok s2 =>
            have h1 : runIterations s logs (Except.ok s2 :: ts) = runIterations s2 logs ts := rfl
            rw [h1, ih, countErrors]
        | error e =>
            have h1 : runIterations s logs (Except.error e :: ts) =
                runIterations s (logs ++ ["Scheduler: " ++ e]) ts := rfl
            rw [h1, ih, countErrors]
            simp
            omega

/-- C8: when the webhook delivery fails during a `set()` that performs a
transition, the failure propagates out of the setter and the `_on` flag
has already been updated to the desired value — no rollback. -/
theorem setter_failure_propagates (s : LightsState) (v : Bool) (h : s._on = !v) :
    (setOnF s v false).snd = true ∧ (setOnF s v false).fst._on = v := by
  cases s with
  | mk o e =>
      cases v <;> simp_all [setOnF]

/-- Witness for C8 at the post-construction shape: the actuator believes
`true`, delivery of the `set(false)` transition fails, the exception
propagates and the flag is already `false`. -/
theorem setter_failure_propagates_witness :
    ((⟨true, []⟩ : LightsState)._on = !false) ∧
    ((setOnF ⟨true, []⟩ false false).snd = true ∧
      (setOnF ⟨true, []⟩ false false).fst._on = false) :=
  ⟨by decide, setter_failure_propagates ⟨true, []⟩ false (by decide)⟩

/-- C9: whenever at least one of the three values passed to
`webhooks_trigger` is not `None`, the collected payload is replaced by
`None` before the request, so provided values are never delivered; a
JSON body (the empty dict) is sent only when no value was provided at
all. -/
theorem webhooks_payload_discarded :
    (∀ v1 v2 v3 : Option String, (v1.isSome || v2.isSome || v3.isSome) = true →
      webhooksPayload v1 v2 v3 = none) ∧
    (∀ (v1 v2 v3 : Option String) (l : List (String × String)),
      webhooksPayload v1 v2 v3 = some l → l = [] ∧ v1 = none ∧ v2 = none ∧ v3 = none) := by
  constructor
  · intro v1 v2 v3 h
    cases v1 <;> cases v2 <;> cases v3 <;> simp_all [webhooksPayload]
  · intro v1 v2 v3 l h
    cases v1 <;> cases v2 <;> cases v3 <;> simp_all [webhooksPayload]

/-- Witness for C9: a call with `value1` provided sends no JSON payload. -/
theorem webhooks_payload_discarded_witness :
    ((some "x" : Option String).isSome || (none : Option String).isSome ||
      (none : Option String).isSome) = true ∧
    webhooksPayload (some "x") none none = none :=
  ⟨by decide, webhooks_payload_discarded.1 (some "x") none none (by decide)⟩

/-- C6: a `TimeSlot` built with a weekday filter is inactive at every
timestamp whose weekday is not in the filter, regardless of
time-of-day. -/
theorem timeslot_weekday_filter (st sp : PyDateTime) (wd : List Int) (x : PyDateTime)
    (h : wd.contains (pyWeekday x) = false) :
    (TimeSlot.mk st sp (some wd)).within x = false := by
  show (if wd.contains (pyWeekday x) then
          withinCore (TimeSlot.mk st sp (some wd)) x else false) = false
  rw [h]
  simp

/-- Witness for C6: the Mon–Fri 06:00–23:00 slot is inactive at
Saturday 2019-07-13 10:00. -/
theorem timeslot_weekday_filter_witness :
    ([0, 1, 2, 3, 4] : List Int).contains (pyWeekday (mkDateTime 2019 7 13 10 0 0 0)) = false ∧
    (mkTimeSlot 6 0 23 0 (some [0, 1, 2, 3, 4])).within (mkDateTime 2019 7 13 10 0 0 0) = false :=
  ⟨by decide,
    timeslot_weekday_filter (strptimeHM 6 0) (strptimeHM 23 0) [0, 1, 2, 3, 4]
      (mkDateTime 2019 7 13 10 0 0 0) (by decide)⟩

end HomeIfttt

namespace HomeIfttt

/-! ### Time-window arithmetic for C3 -/

lemma tdSeconds_shift (t k : Int) : tdSeconds (t + usPerDay * k) = tdSeconds t := by
  unfold tdSeconds
  rw [Int.add_mul_emod_self_left]

lemma ediv_lt_of_add_le (u v : Int) (huv : u + 1000000 ≤ v) :
    u / 1000000 < v / 1000000 := by
  have h1 : (u + 1 * 1000000) / 1000000 = u / 1000000 + 1 :=
    Int.add_mul_ediv_right u 1 (by norm_num)
  have h2 : (u + 1 * 1000000) / 1000000 ≤ v / 1000000 :=
    Int.ediv_le_ediv (by norm_num) (by omega)
  omega

lemma emod_day_of_neg (t : Int) (h1 : -usPerDay ≤ t) (h2 : t < 0) :
    t % usPerDay = t + usPerDay := by
  have hday : usPerDay = 86400000000 := rfl
  have h3 : (t + usPerDay * 1) % usPerDay = t % usPerDay :=
    Int.add_mul_emod_self_left t usPerDay 1
  rw [mul_one] at h3
  rw [← h3]
  exact Int.emod_eq_of_lt (by omega) (by omega)

lemma tdSeconds_compare (a b τ : Int) (ha : 0 ≤ a) (hab : a + 1000000 ≤ b)
    (hb : b + 1000000 ≤ usPerDay) (hτ0 : 0 ≤ τ) (hτd : τ < usPerDay) :
    (tdSeconds (b - τ - 1) < tdSeconds (a - τ - 1)) ↔ (a ≤ τ ∧ τ < b) := by
  have hday : usPerDay = 86400000000 := rfl
  unfold tdSeconds
  rcases lt_or_le τ a with hc | hc
  · have hu : (a - τ - 1) % usPerDay = a - τ - 1 :=
      Int.emod_eq_of_lt (by omega) (by omega)
    have hv : (b - τ - 1) % usPerDay = b - τ - 1 :=
      Int.emod_eq_of_lt (by omega) (by omega)
    rw [hu, hv]
    have hlt := ediv_lt_of_add_le (a - τ - 1) (b - τ - 1) (by omega)
    exact iff_of_false (by omega) (by omega)
  · rcases lt_or_le τ b with hc2 | hc2
    · have hu : (a - τ - 1) % usPerDay = a - τ - 1 + usPerDay :=
        emod_day_of_neg _ (by omega) (by omega)
      have hv : (b - τ - 1) % usPerDay = b - τ - 1 :=
        Int.emod_eq_of_lt (by omega) (by omega)
      rw [hu, hv]
      have hlt := ediv_lt_of_add_le (b - τ - 1) (a - τ - 1 + usPerDay) (by omega)
      exact iff_of_true hlt ⟨hc, hc2⟩
    · have hu : (a - τ - 1) % usPerDay = a - τ - 1 + usPerDay :=
        emod_day_of_neg _ (by omega) (by omega)
      have hv : (b - τ - 1) % usPerDay = b - τ - 1 + usPerDay :=
        emod_day_of_neg _ (by omega) (by omega)
      rw [hu, hv]
      have hlt := ediv_lt_of_add_le (a - τ - 1 + usPerDay) (b - τ - 1 + usPerDay)
        (by omega)
      exact iff_of_false (by omega) (by omega)

/-- C3: for a window with `start < stop` (valid `HH:MM` bounds) and no
weekday filter, `within` is true exactly when the time-of-day component
of `x` (its microseconds modulo one day) lies in the half-open interval
`[start, stop)`; a weekday filter whose set contains `x`'s weekday does
not change the test; and the four boundary checks of `W(06:00, 23:00)`
hold concretely. -/
theorem timeslot_within_halfopen :
    (∀ (sh sm eh em : Int) (x : PyDateTime),
      0 ≤ sh → 0 ≤ sm → 0 ≤ eh → 0 ≤ em → eh ≤ 23 → em ≤ 59 →
      sh * 60 + sm < eh * 60 + em →
      ((mkTimeSlot sh sm eh em none).within x = true ↔
        (sh * 3600 + sm * 60) * 1000000 ≤ x.micros % usPerDay ∧
          x.micros % usPerDay < (eh * 3600 + em * 60) * 1000000)) ∧
    (∀ (sh sm eh em : Int) (wd : List Int) (x : PyDateTime),
      wd.contains (pyWeekday x) = true →
      (mkTimeSlot sh sm eh em (some wd)).within x =
        (mkTimeSlot sh sm eh em none).within x) ∧
    (mkTimeSlot 6 0 23 0 none).within (mkDateTime 2019 7 8 5 59 59 0) = false ∧
    (mkTimeSlot 6 0 23 0 none).within (mkDateTime 2019 7 8 6 0 0 0) = true ∧
    (mkTimeSlot 6 0 23 0 none).within (mkDateTime 2019 7 8 22 59 59 0) = true ∧
    (mkTimeSlot 6 0 23 0 none).within (mkDateTime 2019 7 8 23 0 0 0) = false := by
  refine ⟨?_, ?_, by decide, by decide, by decide, by decide⟩
  · intro sh sm eh em x h1 h2 h3 h4 h5 h6 h7
    have hday : usPerDay = 86400000000 := rfl
    have hx : usPerDay * (x.micros / usPerDay) + x.micros % usPerDay = x.micros :=
      Int.ediv_add_emod x.micros usPerDay
    have key1 : (mkTimeSlot sh sm eh em none).rangeStart.micros - x.micros - 1
        = ((sh * 3600 + sm * 60) * 1000000 - x.micros % usPerDay - 1)
          + usPerDay * (daysFromCivil 1900 1 1 - x.micros / usPerDay) := by
      have e1 : (mkTimeSlot sh sm eh em none).rangeStart.micros
          = daysFromCivil 1900 1 1 * usPerDay + ((sh * 3600 + sm * 60 + 0) * 1000000 + 0) := rfl
      rw [e1]
      linear_combination hx
    have key2 : (mkTimeSlot sh sm eh em none).rangeStop.micros - x.micros - 1
        = ((eh * 3600 + em * 60) * 1000000 - x.micros % usPerDay - 1)
          + usPerDay * (daysFromCivil 1900 1 1 - x.micros / usPerDay) := by
      have e2 : (mkTimeSlot sh sm eh em none).rangeStop.micros
          = daysFromCivil 1900 1 1 * usPerDay + ((eh * 3600 + em * 60 + 0) * 1000000 + 0) := rfl
      rw [e2]
      linear_combination hx
    have hwithin : (mkTimeSlot sh sm eh em none).within x
        = decide (tdSeconds ((eh * 3600 + em * 60) * 1000000 - x.micros % usPerDay - 1) <
                  tdSeconds ((sh * 3600 + sm * 60) * 1000000 - x.micros % usPerDay - 1)) := by
      show withinCore (mkTimeSlot sh sm eh em none) x = _
      unfold withinCore
      rw [key1, key2, tdSeconds_shift, tdSeconds_shift]
    rw [hwithin]
    simp only [decide_eq_true_eq]
    exact tdSeconds_compare ((sh * 3600 + sm * 60) * 1000000)
      ((eh * 3600 + em * 60) * 1000000) (x.micros % usPerDay)
      (by omega) (by omega) (by omega)
      (Int.emod_nonneg x.micros (by decide))
      (Int.emod_lt_of_pos x.micros (by decide))
  · intro sh sm eh em wd x h
    show (if wd.contains (pyWeekday x) then
            withinCore (mkTimeSlot sh sm eh em (some wd)) x else false)
        = withinCore (mkTimeSlot sh sm eh em none) x
    rw [h]
    rfl

/-- Witness for C3: `W(06:00, 23:00)` at 2019-07-08 06:00:00 — the
hypotheses hold and membership is equivalent to the time-of-day bound,
so the window is active at its opening boundary. -/
theorem timeslot_within_halfopen_witness :
    ((0:Int) ≤ 6 ∧ (0:Int) ≤ 0 ∧ (0:Int) ≤ 23 ∧ (0:Int) ≤ 0 ∧ (23:Int) ≤ 23 ∧
      (0:Int) ≤ 59 ∧ (6:Int) * 60 + 0 < 23 * 60 + 0) ∧
    ((mkTimeSlot 6 0 23 0 none).within (mkDateTime 2019 7 8 6 0 0 0) = true ↔
      ((6:Int) * 3600 + 0 * 60) * 1000000 ≤ (mkDateTime 2019 7 8 6 0 0 0).micros % usPerDay ∧
        (mkDateTime 2019 7 8 6 0 0 0).micros % usPerDay < ((23:Int) * 3600 + 0 * 60) * 1000000) :=
  ⟨⟨by norm_num, by norm_num, by norm_num, by norm_num, by norm_num, by norm_num, by norm_num⟩,
    timeslot_within_halfopen.1 6 0 23 0 (mkDateTime 2019 7 8 6 0 0 0)
      (by norm_num) (by norm_num) (by norm_num) (by norm_num) (by norm_num) (by norm_num)
      (by norm_num)⟩

end HomeIfttt
